import Mathlib

/-!
Verification of the ReplyOptimizer worker core against its specification.

The definitions below are a shallow embedding of the Python sources:
  - `insert_message`, thread queries      from db_functions/users_functions.py
  - `get_text_body`, `handle_message`,
    `send_reply`, the poll cycle of
    `imap_worker`, `SessionWorker.sync_accounts`,
    `SessionManager.sync_sessions`         from worker/worker.py
  - `gemini_answer`                        from services/gemini.py
  - `DatadogMetrics._post` and its
    metric operations                      from worker/worker.py
  - the manager loop                       from app.py

External effects (SQLite, IMAP, SMTP, HTTP, the Gemini client) are modelled
by explicit state passing (the message table), event traces (counters,
service checks, logs, send attempts, sleeps) and oracle parameters giving
the outcome of each external call.  Python exceptions are modelled with
`Except`.
-/

namespace ReplyOptimizer

/-! ## The message store

`imap_messages` rows as created by `db_functions/setup.py`:
`(msg_id INTEGER PRIMARY KEY AUTOINCREMENT, mail, thread_id, session, type,
sender, message, subject)`. -/

structure MsgRow where
  msg_id : Nat
  mail : String
  thread_id : String
  session : String
  type : String
  sender : String
  message : String
  subject : Option String
deriving DecidableEq, Repr

structure DB where
  rows : List MsgRow
  nextId : Nat
deriving DecidableEq, Repr

def DB.empty : DB := ⟨[], 0⟩

/-- `insert_message(session, thread_id, msg_type, from_addr, message, subject,
mail)` from users_functions.py: INSERT INTO imap_messages with an
autoincremented `msg_id`. -/
def insert_message (db : DB) (session thread_id msg_type from_addr message : String)
    (subject : Option String) (mail : String) : DB :=
  ⟨db.rows ++ [⟨db.nextId, mail, thread_id, session, msg_type, from_addr, message, subject⟩],
   db.nextId + 1⟩

/-- Rows of one thread, in stored order:
`SELECT ... FROM imap_messages WHERE thread_id = ?`. -/
def threadRows (db : DB) (tid : String) : List MsgRow :=
  db.rows.filter (fun r => r.thread_id == tid)

/-- Insertion step of the `ORDER BY msg_id ASC` sort. -/
def insertByMsgId (r : MsgRow) : List MsgRow → List MsgRow
  | [] => [r]
  | x :: xs => if r.msg_id ≤ x.msg_id then r :: x :: xs else x :: insertByMsgId r xs

/-- `ORDER BY msg_id ASC` as an insertion sort. -/
def orderByMsgId (l : List MsgRow) : List MsgRow :=
  l.foldr insertByMsgId []

/-- `SELECT ... FROM imap_messages WHERE thread_id = ? ORDER BY msg_id ASC`. -/
def queryThreadOrdered (db : DB) (tid : String) : List MsgRow :=
  orderByMsgId (threadRows db tid)

/-- The conversation fetched by `handle_message`:
`SELECT sender, message, type ... ORDER BY msg_id ASC`. -/
def conversationRows (db : DB) (tid : String) : List (String × String × String) :=
  (queryThreadOrdered db tid).map (fun r => (r.sender, r.message, r.type))

/-- `fetchone` of `SELECT session FROM imap_messages WHERE thread_id = ?`
returns a row exactly when some stored message has that thread id. -/
def thread_exists (db : DB) (tid : String) : Bool :=
  db.rows.any (fun r => r.thread_id == tid)

/-! ## Event traces

Observable side effects of the worker: metric submissions, service checks,
structured log records, SMTP send attempts, sleeps, and IMAP flag stores. -/

inductive Event
  | count (name : String) (tags : List String)
  | gauge (name : String) (value : Nat)
  | histogram (name : String) (value : Nat)
  | serviceCheck (name : String) (status : Nat) (tags : List String)
  | logInfo (text : String)
  | logWarning (text : String)
  | logError (text : String)
  | sendAttempt (toAddr subject body : String)
  | sleep (seconds : Nat)
  | markSeen (uid : String)
deriving DecidableEq, Repr

def isSendAttempt : Event → Bool
  | Event.sendAttempt _ _ _ => true
  | _ => false

/-- Number of SMTP delivery attempts recorded in a trace. -/
def attemptCount (evs : List Event) : Nat :=
  (evs.filter isSendAttempt).length

/-! ## send_reply -/

/-- The truthy value returned by `gemini_answer` on success: the dict
`{"body": ..., "meta": {"prompt_chars": ..., "response_chars": ...}}`. -/
structure GenBody where
  body : String
  prompt_chars : Nat
  response_chars : Nat
deriving DecidableEq, Repr

structure SendReplyResult where
  db : DB
  events : List Event
  raised : Bool
deriving Repr

/-- The `for attempt in (1, 2)` delivery loop of `send_reply`, unrolled on
the two attempts.  `ok1` and `ok2` give the outcome of the first and second
`aiosmtplib.send` call. -/
def sendLoop (mail toAddr subject body thread_id : String) (ok1 ok2 : Bool) :
    List Event × Bool :=
  let success := [Event.sendAttempt toAddr subject body,
    Event.count "smtp.sent" ["mailbox:" ++ mail, "thread:" ++ thread_id],
    Event.serviceCheck "smtp.health" 0 ["mailbox:" ++ mail],
    Event.logInfo "Reply sent"]
  if ok1 then (success, false)
  else
    let firstFail := [Event.sendAttempt toAddr subject body,
      Event.count "errors.total" ["component:smtp", "mailbox:" ++ mail],
      Event.sleep 1]
    if ok2 then (firstFail ++ success, false)
    else (firstFail ++ [Event.sendAttempt toAddr subject body,
      Event.count "errors.total" ["component:smtp", "mailbox:" ++ mail],
      Event.serviceCheck "smtp.health" 2 ["mailbox:" ++ mail],
      Event.logError "SMTP send failed"], true)

/-- `send_reply` from worker/worker.py: persist the incoming message, emit
the outcome counter, stop with a warning on a falsy body, otherwise emit the
size histograms, persist the outgoing reply, and run the delivery loop.
`raised` records whether the Python function raises (second attempt failed). -/
def send_reply (db : DB) (session mail toAddr subject first_subject : String)
    (body : Option GenBody) (thread_id original_text status : String)
    (ok1 ok2 : Bool) : SendReplyResult :=
  let db1 := insert_message db session thread_id "incoming" toAddr original_text
    (some first_subject) mail
  let outcomeEv := Event.count "gemini.outcome"
    ["status:" ++ status, "mailbox:" ++ mail, "thread:" ++ thread_id]
  match body with
  | none =>
    ⟨db1,
     [outcomeEv,
      Event.count "errors.by_type" ["type:" ++ status, "mailbox:" ++ mail],
      Event.logWarning "LLM returned no body"],
     false⟩
  | some b =>
    let metaEvs := [Event.histogram "gemini.prompt.chars" b.prompt_chars,
      Event.histogram "gemini.response.chars" b.response_chars]
    let db2 := insert_message db1 session thread_id "outcoming" mail b.body
      (some subject) mail
    let sl := sendLoop mail toAddr subject b.body thread_id ok1 ok2
    ⟨db2, outcomeEv :: metaEvs ++ sl.1, sl.2⟩

/-! ## handle_message -/

/-- The header fields of an inbound message that `handle_message` reads:
the email part of From, Subject, Message-ID and In-Reply-To, plus the
extracted text body. -/
structure InboundMsg where
  fromAddr : String
  subject : String
  msgId : String
  inReplyTo : Option String
  text : String
deriving DecidableEq, Repr

structure HandleResult where
  threadId : String
  isNew : Bool
  conversation : List (String × String × String)
  body : Option GenBody
  status : String
  send : SendReplyResult
deriving Repr

/-- `handle_message` from worker/worker.py: thread correlation on the
In-Reply-To header, conversation fetch for a known thread, the call to
`gemini_answer` (given here as the oracle `gen`), and the final call to
`send_reply` with subject `"Re: " ++ subject`. -/
def handle_message (db : DB) (session mail : String) (m : InboundMsg)
    (gen : String → List (String × String × String) → Option GenBody × String)
    (ok1 ok2 : Bool) : HandleResult :=
  let tid :=
    match m.inReplyTo with
    | some r => if thread_exists db r then r else m.msgId
    | none => m.msgId
  let isNew :=
    match m.inReplyTo with
    | some r => !(thread_exists db r)
    | none => true
  let conv := if isNew then [] else conversationRows db tid
  let g := gen m.text conv
  ⟨tid, isNew, conv, g.1, g.2,
   send_reply db session mail m.fromAddr ("Re: " ++ m.subject) m.subject g.1
     tid m.text g.2 ok1 ok2⟩

/-! ## get_text_body

A MIME message as `get_text_body` observes it: `is_multipart()` is true on
the `multi` constructor, whose own `get_payload(decode=True)` is Python
`None`; a leaf carries a content type and decodable payload bytes. -/

inductive Mime
  | leaf (ctype : String) (payload : String)
  | multi (parts : List Mime)

/-- The `for part in msg.walk()` search for the first `text/plain` payload.
`walk` visits the message itself and then each part recursively; a `multi`
node never has content type `text/plain`. -/
def findPlain : Mime → Option String
  | Mime.leaf c p => if c == "text/plain" then some p else none
  | Mime.multi [] => none
  | Mime.multi (m :: rest) =>
    match findPlain m with
    | some s => some s
    | none => findPlain (Mime.multi rest)

/-- `get_text_body` from worker/worker.py.  For a multipart message without
a `text/plain` part the loop falls through to
`msg.get_payload(decode=True).decode(...)` where `get_payload` is `None`,
so the call raises `AttributeError`; this is the `Except.error` case. -/
def get_text_body : Mime → Except String String
  | Mime.leaf _ p => Except.ok p
  | Mime.multi parts =>
    match findPlain (Mime.multi parts) with
    | some s => Except.ok s
    | none => Except.error "AttributeError: NoneType has no attribute decode"

/-- Whether any part of the message tree is a `text/plain` leaf. -/
def hasPlainPart : Mime → Bool
  | Mime.leaf c _ => c == "text/plain"
  | Mime.multi [] => false
  | Mime.multi (m :: rest) => hasPlainPart m || hasPlainPart (Mime.multi rest)

/-! ## gemini_answer

Python values that `json.loads` can produce. -/

inductive Json
  | jnull
  | jbool (b : Bool)
  | jnum (n : Int)
  | jstr (s : String)
  | jarr (elems : List Json)
  | jobj (fields : List (String × Json))

/-- Python attribute call `data.get(key)`: defined for dicts, where a
missing key yields `None`; any other value raises `AttributeError`. -/
def pyGet (j : Json) (key : String) : Except String (Option Json) :=
  match j with
  | Json.jobj fields => Except.ok ((fields.find? (fun f => f.1 == key)).map (fun f => f.2))
  | _ => Except.error "AttributeError: get"

/-- Python truthiness of a loaded JSON value. -/
def pyTruthy : Json → Bool
  | Json.jnull => false
  | Json.jbool b => b
  | Json.jnum n => n != 0
  | Json.jstr s => s != ""
  | Json.jarr xs => !xs.isEmpty
  | Json.jobj fs => !fs.isEmpty

/-- Python `len`: defined for strings, lists and dicts; raises `TypeError`
otherwise. -/
def pyLen : Json → Except String Nat
  | Json.jstr s => Except.ok s.length
  | Json.jarr xs => Except.ok xs.length
  | Json.jobj fs => Except.ok fs.length
  | _ => Except.error "TypeError: len"

/-- The tenant record read by `gemini_answer` via `get_session`. -/
structure UserRec where
  gemini_key : String
  instructions : String
deriving DecidableEq, Repr

/-- Outcome of the guarded `client.models.generate_content` call together
with `json.loads(response.text or "")`: either the call raises, or it
returns text whose parse result is `none` (a `JSONDecodeError`) or a JSON
value. -/
inductive ProviderResp
  | raises
  | parsed (data : Option Json)

/-- `gemini_answer` from services/gemini.py.  `user` is the `get_session`
result; `resp` the provider call outcome.  Only the provider call is inside
a try/except; `data.get("body")` and `len(body)` can raise out of the
function, modelled by `Except.error`. -/
def gemini_answer (user : Option UserRec) (resp : ProviderResp) :
    Except String (Option Json × String) :=
  match user with
  | none => Except.ok (none, "user_not_found")
  | some _ =>
    match resp with
    | ProviderResp.raises => Except.ok (none, "provider_error")
    | ProviderResp.parsed none => Except.ok (none, "invalid_json")
    | ProviderResp.parsed (some data) =>
      match pyGet data "body" with
      | Except.error e => Except.error e
      | Except.ok bodyOpt =>
        let body := bodyOpt.getD Json.jnull
        match body with
        | Json.jbool false => Except.ok (none, "filtered")
        | _ =>
          if !(pyTruthy body) then Except.ok (none, "empty_body")
          else
            match pyLen body with
            | Except.error e => Except.error e
            | Except.ok _ => Except.ok (some body, "success")

/-- The six outcome codes of the generation service. -/
def outcomeCodes : List String :=
  ["success", "user_not_found", "provider_error", "invalid_json", "filtered", "empty_body"]

/-! ## DatadogMetrics -/

/-- The instance attributes that `DatadogMetrics.__init__` assigns.  No
`logger` attribute is ever set on the class. -/
def ddAttrs : List String := ["api_key", "site", "base_url", "headers", "session"]

/-- Python attribute lookup on a `DatadogMetrics` instance. -/
def ddGetAttr (attr : String) : Except String Unit :=
  if ddAttrs.contains attr then Except.ok ()
  else Except.error ("AttributeError: " ++ attr)

/-- Outcome of the HTTP POST performed inside `_post`. -/
inductive HttpResult
  | status (code : Nat) (text : String)
  | exn (msg : String)
deriving DecidableEq, Repr

/-- `DatadogMetrics._post`: the try block returns on a 2xx status, attempts
`self.logger.warning(...)` on any other status, and any exception from the
try block (network failure, or the attribute lookup itself) reaches the
handler, which again attempts `self.logger.warning(...)`; an exception
raised there propagates to the caller. -/
def dd_post (resp : HttpResult) : Except String Unit :=
  let tryBlock : Except String Unit :=
    match resp with
    | HttpResult.exn m => Except.error ("request: " ++ m)
    | HttpResult.status code _ =>
      if code == 200 || code == 202 || code == 204 then Except.ok ()
      else ddGetAttr "logger"
  match tryBlock with
  | Except.ok _ => Except.ok ()
  | Except.error _ => ddGetAttr "logger"

/-- `submit_metric` builds a series payload and delegates to `_post`. -/
def submit_metric (metric_name : String) (value : Nat) (metric_type : String)
    (resp : HttpResult) : Except String Unit :=
  dd_post resp

def dd_gauge (metric_name : String) (value : Nat) (resp : HttpResult) :
    Except String Unit :=
  submit_metric metric_name value "gauge" resp

def dd_count (metric_name : String) (value : Nat) (resp : HttpResult) :
    Except String Unit :=
  submit_metric metric_name value "count" resp

def dd_increment (metric_name : String) (resp : HttpResult) : Except String Unit :=
  dd_count metric_name 1 resp

def dd_histogram (metric_name : String) (value : Nat) (resp : HttpResult) :
    Except String Unit :=
  submit_metric metric_name value "histogram" resp

def dd_service_check (check_name : String) (status : Nat) (resp : HttpResult) :
    Except String Unit :=
  dd_post resp

/-! ## The imap_worker poll cycle -/

/-- The `for uid in data[0].split()` loop of `imap_worker`: each uid is
processed by `handle_message` (the oracle `proc` tells whether that call
raises), then marked seen and counted.  The loop aborts at the first uid
whose processing raises; that uid is returned as the failure. -/
def processUids (mail : String) (proc : String → Bool) :
    List String → List String × Option String × List Event
  | [] => ([], none, [])
  | u :: rest =>
    if proc u then ([], some u, [])
    else
      let t := processUids mail proc rest
      (u :: t.1, t.2.1,
       Event.markSeen u :: Event.count "emails.processed" ["mailbox:" ++ mail] :: t.2.2)

/-- The error transition of `imap_worker`: exception log, error counter,
unhealthy check, 5-second backoff. -/
def imapErrorEvents (mail : String) : List Event :=
  [Event.logError "IMAP error",
   Event.count "errors.total" ["component:imap", "mailbox:" ++ mail],
   Event.serviceCheck "imap.health" 2 ["mailbox:" ++ mail],
   Event.sleep 5]

structure PollCycleResult where
  seenMarked : List String
  failed : Option String
  events : List Event
deriving Repr

/-- One poll cycle of `imap_worker` over the identifiers returned by
`search("UNSEEN")`: process each uid in order; if one raises, the exception
reaches the enclosing error transition. -/
def pollCycle (mail : String) (proc : String → Bool) (unseen : List String) :
    PollCycleResult :=
  let t := processUids mail proc unseen
  ⟨t.1, t.2.1, t.2.2 ++ (if t.2.1.isSome then imapErrorEvents mail else [])⟩

/-- The identifiers the next `search("UNSEEN")` returns, assuming no
external change: everything not marked seen by the cycle. -/
def remainingUnseen (unseen seen : List String) : List String :=
  unseen.filter (fun u => !(seen.contains u))

/-! ## Reconciliation: sync_accounts, sync_sessions, the manager loop -/

structure AccountsSyncResult where
  tasks : Finset String
  started : Finset String
  stopped : Finset String
deriving DecidableEq

/-- `SessionWorker.sync_accounts`: `store` is the `get_session` result
restricted to the mailbox-address set of `imap_accounts` (`none` models a
falsy record, on which the pass returns unchanged).  Addresses in
desired-minus-current are started and registered; addresses in
current-minus-desired are popped, signalled and cancelled. -/
def sync_accounts (tasks : Finset String) (store : Option (Finset String)) :
    AccountsSyncResult :=
  match store with
  | none => ⟨tasks, ∅, ∅⟩
  | some desired =>
    let started := desired \ tasks
    let stopped := tasks \ desired
    ⟨(tasks ∪ started) \ stopped, started, stopped⟩

structure SessionsSyncResult where
  sessions : Finset String
  started : Finset String
  stopped : Finset String
deriving DecidableEq

/-- `SessionManager.sync_sessions`: `load` is the outcome of
`_load_sessions`; a Store read failure propagates before any worker is
started or stopped. -/
def sync_sessions (running : Finset String) (load : Except Unit (Finset String)) :
    Except Unit SessionsSyncResult :=
  match load with
  | Except.error e => Except.error e
  | Except.ok s =>
    Except.ok ⟨(running ∪ (s \ running)) \ (running \ s), s \ running, running \ s⟩

/-- The `while True: await manager.sync_sessions(); await asyncio.sleep(30)`
loop of `manager_loop` in app.py (and of `main` in worker.py), run over a
list of successive Store readings.  There is no exception handler around
the body, so a raising `sync_sessions` exits the loop; the Bool in the
result records that the loop halted with an exception, and later readings
are never consumed. -/
def manager_loop (running : Finset String) :
    List (Except Unit (Finset String)) → Finset String × Bool
  | [] => (running, false)
  | load :: rest =>
    match sync_sessions running load with
    | Except.error _ => (running, true)
    | Except.ok res => manager_loop res.sessions rest

/-! ## Helper definitions for the statements -/

/-- The row that `send_reply` persists for the incoming message. -/
def incomingRowOf (db : DB) (session mail toAddr first_subject thread_id text : String) :
    MsgRow :=
  ⟨db.nextId, mail, thread_id, session, "incoming", toAddr, text, some first_subject⟩

/-- The direction-tag invariant exactly as the specification words it: the
tag of every persisted message is "incoming" or "outgoing". -/
def specDirectionTagOk (r : MsgRow) : Bool :=
  r.type == "incoming" || r.type == "outgoing"

/-- Ordering relation of the `ORDER BY msg_id ASC` clause. -/
def msgIdLE (a b : MsgRow) : Prop := a.msg_id ≤ b.msg_id

/-! Concrete inputs used by the witness instances. -/

def dbW : DB := ⟨[⟨0, "me@x", "T9", "s", "incoming", "a@y", "hello", some "Hi"⟩], 1⟩

def msgW : InboundMsg := ⟨"a@y", "Hi", "M123", some "T9", "hello again"⟩

def msgW2 : InboundMsg := ⟨"a@y", "Help", "M1", none, "Where is my order?"⟩

def genW : String → List (String × String × String) → Option GenBody × String :=
  fun _ _ => (some ⟨"On it.", 10, 6⟩, "success")

def procW : String → Bool := fun u => u == "m2"

/-! ## Shared lemmas -/

theorem mem_insertByMsgId (a r : MsgRow) (l : List MsgRow) :
    a ∈ insertByMsgId r l ↔ a = r ∨ a ∈ l := by
  induction l with
  | nil => simp [insertByMsgId]
  | cons x xs ih =>
    simp only [insertByMsgId]
    by_cases h : r.msg_id ≤ x.msg_id
    · simp [h]
    · simp [h, ih]
      tauto

theorem pairwise_insertByMsgId (r : MsgRow) (l : List MsgRow)
    (h : l.Pairwise msgIdLE) : (insertByMsgId r l).Pairwise msgIdLE := by
  induction l with
  | nil => simp [insertByMsgId, List.pairwise_singleton]
  | cons x xs ih =>
    rcases List.pairwise_cons.mp h with ⟨hx, hxs⟩
    simp only [insertByMsgId]
    by_cases hle : r.msg_id ≤ x.msg_id
    · simp only [hle, if_true]
      refine List.pairwise_cons.mpr ⟨?_, h⟩
      intro b hb
      rcases List.mem_cons.mp hb with hb | hb
      · subst hb; exact hle
      · exact Nat.le_trans hle (hx b hb)
    · simp only [hle, if_false]
      refine List.pairwise_cons.mpr ⟨?_, ih hxs⟩
      intro b hb
      rcases (mem_insertByMsgId b r xs).mp hb with hb | hb
      · subst hb; exact Nat.le_of_not_le hle
      · exact hx b hb

theorem pairwise_orderByMsgId (l : List MsgRow) :
    (orderByMsgId l).Pairwise msgIdLE := by
  induction l with
  | nil => simp [orderByMsgId]
  | cons x xs ih => exact pairwise_insertByMsgId x (orderByMsgId xs) ih

/-- The `ORDER BY msg_id ASC` query is sorted by sequence number. -/
theorem pairwise_queryThreadOrdered (db : DB) (tid : String) :
    (queryThreadOrdered db tid).Pairwise msgIdLE :=
  pairwise_orderByMsgId (threadRows db tid)

theorem findPlain_isSome : ∀ (m : Mime), (findPlain m).isSome = hasPlainPart m
  | Mime.leaf c p => by
    simp only [findPlain, hasPlainPart]
    split <;> simp_all
  | Mime.multi [] => by simp [findPlain, hasPlainPart]
  | Mime.multi (m :: rest) => by
    have ih1 := findPlain_isSome m
    have ih2 := findPlain_isSome (Mime.multi rest)
    simp only [findPlain, hasPlainPart]
    cases hf : findPlain m with
    | some s => rw [hf] at ih1; simp [← ih1]
    | none => rw [hf] at ih1; simp [← ih1, ih2]

theorem processUids_seen_false (mail : String) (proc : String → Bool) :
    ∀ (l : List String) (u : String),
      u ∈ (processUids mail proc l).1 → proc u = false := by
  intro l
  induction l with
  | nil => intro u h; simp [processUids] at h
  | cons x xs ih =>
    intro u h
    simp only [processUids] at h
    by_cases hx : proc x
    · simp [hx] at h
    · simp only [hx, if_neg, Bool.false_eq_true, if_false] at h
      rcases List.mem_cons.mp h with h | h
      · subst h; simpa using hx
      · exact ih u h

theorem processUids_failed_spec (mail : String) (proc : String → Bool) :
    ∀ (l : List String) (M : String),
      (processUids mail proc l).2.1 = some M → proc M = true ∧ M ∈ l := by
  intro l
  induction l with
  | nil => intro M h; simp [processUids] at h
  | cons x xs ih =>
    intro M h
    simp only [processUids] at h
    by_cases hx : proc x
    · simp only [hx, if_true] at h
      rcases h with h
      injection h with h
      subst h
      exact ⟨hx, List.mem_cons_self x xs⟩
    · simp only [hx, Bool.false_eq_true, if_false] at h
      rcases ih M h with ⟨h1, h2⟩
      exact ⟨h1, List.mem_cons_of_mem x h2⟩

theorem processUids_markSeen_mem (mail : String) (proc : String → Bool) :
    ∀ (l : List String) (v : String),
      Event.markSeen v ∈ (processUids mail proc l).2.2 →
      v ∈ (processUids mail proc l).1 := by
  intro l
  induction l with
  | nil => intro v h; simp [processUids] at h
  | cons x xs ih =>
    intro v h
    simp only [processUids] at h ⊢
    by_cases hx : proc x
    · simp [hx] at h
    · simp only [hx, Bool.false_eq_true, if_false] at h ⊢
      rcases List.mem_cons.mp h with h | h
      · injection h with h; rw [h]; exact List.mem_cons_self _ _
      · rcases List.mem_cons.mp h with h | h
        · cases h
        · exact List.mem_cons_of_mem x (ih v h)

/-! ## Claim theorems -/

/-- C10: body extraction is partial.  For every multipart inbound message
that contains no text/plain part, `get_text_body` does not return a string
but fails (it calls decode on the None payload of a multipart message);
extraction is total for non-multipart messages and for multipart messages
containing a text/plain part. -/
theorem claim_C10 (parts : List Mime) (c p : String) :
    (hasPlainPart (Mime.multi parts) = false →
      get_text_body (Mime.multi parts) =
        Except.error "AttributeError: NoneType has no attribute decode") ∧
    (hasPlainPart (Mime.multi parts) = true →
      ∃ s, get_text_body (Mime.multi parts) = Except.ok s) ∧
    get_text_body (Mime.leaf c p) = Except.ok p := by
  refine ⟨?_, ?_, by simp [get_text_body]⟩
  · intro h
    have hs := findPlain_isSome (Mime.multi parts)
    rw [h] at hs
    cases hf : findPlain (Mime.multi parts) with
    | none => simp [get_text_body, hf]
    | some s => rw [hf] at hs; simp at hs
  · intro h
    have hs := findPlain_isSome (Mime.multi parts)
    rw [h] at hs
    cases hf : findPlain (Mime.multi parts) with
    | none => rw [hf] at hs; simp at hs
    | some s => exact ⟨s, by simp [get_text_body, hf]⟩

/-- C10 witness: a multipart message holding only a text/html part makes
`get_text_body` fail, while a plain leaf and a multipart with a text/plain
part succeed. -/
theorem claim_C10_witness :
    get_text_body (Mime.multi [Mime.leaf "text/html" "<p>x</p>"]) =
      Except.error "AttributeError: NoneType has no attribute decode" :=
  (claim_C10 [Mime.leaf "text/html" "<p>x</p>"] "text/plain" "hi").1
    (by simp [hasPlainPart])

/-- C6: the claim says MetricsSink failures are logged locally and never
propagate; but `DatadogMetrics.__init__` never assigns `self.logger`, so on
a non-2xx response or a request exception both the try block and the except
handler evaluate `self.logger` and the resulting AttributeError propagates
to the caller, through every metric operation.  A 2xx response returns
normally. -/
theorem claim_C6 :
    dd_post (HttpResult.status 500 "boom") = Except.error "AttributeError: logger" ∧
    dd_post (HttpResult.exn "timeout") = Except.error "AttributeError: logger" ∧
    dd_gauge "imap.accounts.active" 1 (HttpResult.status 500 "boom") =
      Except.error "AttributeError: logger" ∧
    dd_count "emails.processed" 1 (HttpResult.exn "timeout") =
      Except.error "AttributeError: logger" ∧
    dd_increment "errors.total" (HttpResult.status 403 "denied") =
      Except.error "AttributeError: logger" ∧
    dd_histogram "gemini.prompt.chars" 7 (HttpResult.exn "reset") =
      Except.error "AttributeError: logger" ∧
    dd_service_check "imap.health" 2 (HttpResult.status 500 "boom") =
      Except.error "AttributeError: logger" ∧
    dd_post (HttpResult.status 202 "") = Except.ok () :=
  ⟨rfl, rfl, rfl, rfl, rfl, rfl, rfl, rfl⟩

/-- C2: after a reconciliation pass with a present Store record, the
running-poller address set equals exactly the Store mailbox set; a repeated
pass over unchanged Store state starts no poller, stops no poller and
removes nothing from the registry. -/
theorem claim_C2 (tasks desired : Finset String) :
    (sync_accounts tasks (some desired)).tasks = desired ∧
    (sync_accounts desired (some desired)).started = ∅ ∧
    (sync_accounts desired (some desired)).stopped = ∅ ∧
    (sync_accounts desired (some desired)).tasks = desired := by
  refine ⟨?_, by simp [sync_accounts], by simp [sync_accounts], by simp [sync_accounts]⟩
  simp only [sync_accounts]
  ext a
  simp only [Finset.mem_sdiff, Finset.mem_union]
  tauto

/-- C2 witness at a concrete registry and Store record. -/
theorem claim_C2_witness :
    (sync_accounts {"a@x"} (some {"a@x", "b@x"})).tasks = ({"a@x", "b@x"} : Finset String) :=
  (claim_C2 {"a@x"} {"a@x", "b@x"}).1

/-- C8 counterexample: with one running tenant, a failing Store read
followed by a successful one.  The loop body has no exception handler, so
the first failure terminates the reconciliation loop (the Bool is true) and
the second scheduled reading is never consumed: the registry stays at its
old value instead of being reconciled to the new tenant set, refuting
"reconciliation is retried on the next scheduled interval rather than
halting the reconciliation loop". -/
theorem claim_C8_counterexample :
    manager_loop {"t1"} [Except.error (), Except.ok {"t1", "t2"}] = ({"t1"}, true) ∧
    (manager_loop {"t1"} [Except.error (), Except.ok {"t1", "t2"}]).1 ≠
      ({"t1", "t2"} : Finset String) := by
  refine ⟨rfl, ?_⟩
  intro h
  have h3 : ({"t1"} : Finset String) = ({"t1", "t2"} : Finset String) := h
  have h2 : ("t2" : String) ∈ ({"t1"} : Finset String) := by
    rw [h3]; simp
  simp at h2

/-- C8 amended: if reading the tenant set from the Store fails during a
reconciliation cycle, that cycle aborts without starting or stopping any
tenant worker and the previously running registry is untouched; however the
exception propagates out of the loop body, so the reconciliation loop halts
and later scheduled cycles never run (it is not retried). -/
theorem claim_C8_amended (running : Finset String)
    (rest : List (Except Unit (Finset String))) :
    sync_sessions running (Except.error ()) = Except.error () ∧
    manager_loop running (Except.error () :: rest) = (running, true) :=
  ⟨rfl, rfl⟩

/-- C8 witness: concrete instance of the amended claim. -/
theorem claim_C8_witness :
    manager_loop {"t1"} [Except.error (), Except.ok {"t1", "t3"}] =
      (({"t1"} : Finset String), true) :=
  (claim_C8_amended {"t1"} [Except.ok {"t1", "t3"}]).2

/-- C9 counterexample: a concrete successful `send_reply` run persists the
reply with direction tag "outcoming", so the stored tags are not all drawn
from the set the specification names, refuting that the reply is tagged
"outgoing". -/
theorem claim_C9_counterexample :
    ((send_reply DB.empty "s1" "me@x.com" "alice@y.com" "Re: Hi" "Hi"
        (some ⟨"On its way.", 120, 11⟩) "T1" "where is it" "success" true true).db.rows.map
      (fun row => row.type)) = ["incoming", "outcoming"] ∧
    (send_reply DB.empty "s1" "me@x.com" "alice@y.com" "Re: Hi" "Hi"
        (some ⟨"On its way.", 120, 11⟩) "T1" "where is it" "success" true true).db.rows.all
      specDirectionTagOk = false :=
  ⟨rfl, rfl⟩

/-- C9 amended: every Message persisted by the core carries a direction tag
that is either "incoming" or "outcoming" (sic); the reply persisted on a
success outcome is tagged "outcoming", not "outgoing". -/
theorem claim_C9_amended (db : DB) (session mail toAddr subject first_subject : String)
    (body : Option GenBody) (thread_id text status : String) (ok1 ok2 : Bool) :
    (∀ row ∈ (send_reply db session mail toAddr subject first_subject body
        thread_id text status ok1 ok2).db.rows,
      row ∈ db.rows ∨ row.type = "incoming" ∨ row.type = "outcoming") ∧
    (∀ b, body = some b →
      (send_reply db session mail toAddr subject first_subject body
        thread_id text status ok1 ok2).db.rows.getLast? =
        some ⟨db.nextId + 1, mail, thread_id, session, "outcoming", mail, b.body,
          some subject⟩) := by
  constructor
  · intro row hrow
    cases body with
    | none =>
      simp only [send_reply, insert_message] at hrow
      rcases List.mem_append.mp hrow with h | h
      · exact Or.inl h
      · rcases List.mem_singleton.mp h with h
        subst h
        exact Or.inr (Or.inl rfl)
    | some b =>
      simp only [send_reply, insert_message] at hrow
      rcases List.mem_append.mp hrow with h | h
      · rcases List.mem_append.mp h with h | h
        · exact Or.inl h
        · rcases List.mem_singleton.mp h with h
          subst h
          exact Or.inr (Or.inl rfl)
      · rcases List.mem_singleton.mp h with h
        subst h
        exact Or.inr (Or.inr rfl)
  · intro b hb
    subst hb
    simp [send_reply, insert_message]

/-- C9 witness: concrete instance of the amended claim. -/
theorem claim_C9_witness :
    (send_reply DB.empty "s1" "me@x.com" "alice@y.com" "Re: Hi" "Hi"
      (some ⟨"On its way.", 120, 11⟩) "T1" "where is it" "success" true true).db.rows.getLast? =
      some ⟨1, "me@x.com", "T1", "s1", "outcoming", "me@x.com", "On its way.", some "Re: Hi"⟩ :=
  (claim_C9_amended DB.empty "s1" "me@x.com" "alice@y.com" "Re: Hi" "Hi"
    (some ⟨"On its way.", 120, 11⟩) "T1" "where is it" "success" true true).2
    ⟨"On its way.", 120, 11⟩ rfl

/-- C7 counterexample: a provider response whose text is valid JSON but not
a JSON object (here the list `[]`) reaches `data.get("body")`, which raises
AttributeError out of `gemini_answer` instead of mapping to an outcome pair,
refuting that any internal failure maps to provider_error without
propagating. -/
theorem claim_C7_counterexample :
    gemini_answer (some ⟨"key", "inst"⟩) (ProviderResp.parsed (some (Json.jarr []))) =
      Except.error "AttributeError: get" :=
  rfl

/-- Shape of every pair `gemini_answer` actually returns. -/
theorem gemini_ok_cases (user : Option UserRec) (resp : ProviderResp)
    (out : Option Json × String) (h : gemini_answer user resp = Except.ok out) :
    (out.1 = none ∧ (out.2 = "user_not_found" ∨ out.2 = "provider_error" ∨
      out.2 = "invalid_json" ∨ out.2 = "filtered" ∨ out.2 = "empty_body")) ∨
    ((∃ j, out.1 = some j) ∧ out.2 = "success") := by
  cases user with
  | none =>
    have h2 : Except.ok ((none : Option Json), "user_not_found") = Except.ok out := h
    injection h2 with h2
    rw [← h2]
    simp
  | some u =>
    cases resp with
    | raises =>
      have h2 : Except.ok ((none : Option Json), "provider_error") = Except.ok out := h
      injection h2 with h2
      rw [← h2]
      simp
    | parsed d =>
      cases d with
      | none =>
        have h2 : Except.ok ((none : Option Json), "invalid_json") = Except.ok out := h
        injection h2 with h2
        rw [← h2]
        simp
      | some data =>
        cases data with
        | jnull =>
          have h2 : Except.error "AttributeError: get" = Except.ok out := h
          exact Except.noConfusion h2
        | jbool b =>
          have h2 : Except.error "AttributeError: get" = Except.ok out := h
          exact Except.noConfusion h2
        | jnum n =>
          have h2 : Except.error "AttributeError: get" = Except.ok out := h
          exact Except.noConfusion h2
        | jstr s =>
          have h2 : Except.error "AttributeError: get" = Except.ok out := h
          exact Except.noConfusion h2
        | jarr l =>
          have h2 : Except.error "AttributeError: get" = Except.ok out := h
          exact Except.noConfusion h2
        | jobj fields =>
          simp only [gemini_answer, pyGet] at h
          cases hfind : fields.find? (fun f => f.1 == "body") with
          | none =>
            rw [hfind] at h
            simp [pyTruthy] at h
            subst h
            simp
          | some f =>
            rw [hfind] at h
            simp only [Option.map_some', Option.getD_some] at h
            cases hf2 : f.2 with
            | jnull =>
              rw [hf2] at h
              simp [pyTruthy] at h
              subst h
              simp
            | jbool b =>
              rw [hf2] at h
              cases b with
              | false =>
                simp [pyTruthy] at h
                subst h
                simp
              | true =>
                simp [pyTruthy, pyLen] at h
            | jnum n =>
              rw [hf2] at h
              by_cases hn : n = 0
              · subst hn
                simp [pyTruthy] at h
                subst h
                simp
              · simp [pyTruthy, pyLen, hn] at h
            | jstr s =>
              rw [hf2] at h
              by_cases hs : s = ""
              · subst hs
                simp [pyTruthy] at h
                subst h
                simp
              · simp [pyTruthy, pyLen, hs] at h
                subst h
                simp
            | jarr l =>
              rw [hf2] at h
              cases l with
              | nil =>
                simp [pyTruthy] at h
                subst h
                simp
              | cons x xs =>
                simp [pyTruthy, pyLen] at h
                subst h
                simp
            | jobj l =>
              rw [hf2] at h
              cases l with
              | nil =>
                simp [pyTruthy] at h
                subst h
                simp
              | cons x xs =>
                simp [pyTruthy, pyLen] at h
                subst h
                simp

/-- C7 amended: a failure of the provider call itself maps to
provider_error, and whenever `gemini_answer` returns a pair its outcome is
drawn from {success, user_not_found, provider_error, invalid_json,
filtered, empty_body}, with a body exactly on success; however, when the
provider response is valid JSON that is not a JSON object (or its body
value is truthy without a length), an exception propagates to the caller
instead of being mapped to an outcome (see the counterexample). -/
theorem claim_C7_amended (user : Option UserRec) (u : UserRec) (resp : ProviderResp)
    (out : Option Json × String) (h : gemini_answer user resp = Except.ok out) :
    out.2 ∈ outcomeCodes ∧ (Option.isSome out.1 = true ↔ out.2 = "success") ∧
    gemini_answer (some u) ProviderResp.raises = Except.ok (none, "provider_error") := by
  rcases gemini_ok_cases user resp out h with ⟨h1, h2⟩ | ⟨⟨j, h1⟩, h2⟩
  · refine ⟨?_, ?_, rfl⟩
    · rcases h2 with h2 | h2 | h2 | h2 | h2 <;> simp [outcomeCodes, h2]
    · rw [h1]
      rcases h2 with h2 | h2 | h2 | h2 | h2 <;> simp [h2]
  · refine ⟨?_, ?_, rfl⟩
    · simp [outcomeCodes, h2]
    · rw [h1, h2]
      simp

/-- C7 witness: a JSON-object response with a non-empty body string yields
a success pair, and a raising provider call yields the provider_error
pair. -/
theorem claim_C7_witness :
    ("success" ∈ outcomeCodes ∧
     (Option.isSome (some (Json.jstr "hi")) = true ↔ "success" = "success") ∧
     gemini_answer (some ⟨"k", "i"⟩) ProviderResp.raises =
       Except.ok (none, "provider_error")) :=
  claim_C7_amended (some ⟨"k", "i"⟩) ⟨"k", "i"⟩
    (ProviderResp.parsed (some (Json.jobj [("body", Json.jstr "hi")])))
    (some (Json.jstr "hi"), "success") rfl

/-- C3: if processing an unseen message M raises, M is not marked seen on
the connection; the exception reaches the error transition (error counter,
unhealthy check, backoff), and the next poll after reconnect re-fetches M
because it is still unseen. -/
theorem claim_C3 (mail : String) (proc : String → Bool) (unseen : List String)
    (M : String) (h : (pollCycle mail proc unseen).failed = some M) :
    M ∉ (pollCycle mail proc unseen).seenMarked ∧
    Event.markSeen M ∉ (pollCycle mail proc unseen).events ∧
    Event.count "errors.total" ["component:imap", "mailbox:" ++ mail] ∈
      (pollCycle mail proc unseen).events ∧
    Event.serviceCheck "imap.health" 2 ["mailbox:" ++ mail] ∈
      (pollCycle mail proc unseen).events ∧
    Event.sleep 5 ∈ (pollCycle mail proc unseen).events ∧
    M ∈ remainingUnseen unseen (pollCycle mail proc unseen).seenMarked := by
  have hfail : (processUids mail proc unseen).2.1 = some M := h
  rcases processUids_failed_spec mail proc unseen M hfail with ⟨hM, hMem⟩
  have hnotseen : M ∉ (processUids mail proc unseen).1 := by
    intro hc
    have hfalse := processUids_seen_false mail proc unseen M hc
    rw [hM] at hfalse
    exact Bool.noConfusion hfalse
  have hseen : (pollCycle mail proc unseen).seenMarked =
      (processUids mail proc unseen).1 := rfl
  have hiss : (processUids mail proc unseen).2.1.isSome = true := by
    rw [hfail]; rfl
  have hevents : (pollCycle mail proc unseen).events =
      (processUids mail proc unseen).2.2 ++ imapErrorEvents mail := by
    simp [pollCycle, hiss]
  refine ⟨?_, ?_, ?_, ?_, ?_, ?_⟩
  · rw [hseen]; exact hnotseen
  · rw [hevents]
    intro hc
    rcases List.mem_append.mp hc with hc | hc
    · exact hnotseen (processUids_markSeen_mem mail proc unseen M hc)
    · simp [imapErrorEvents] at hc
  · rw [hevents]; exact List.mem_append_right _ (by simp [imapErrorEvents])
  · rw [hevents]; exact List.mem_append_right _ (by simp [imapErrorEvents])
  · rw [hevents]; exact List.mem_append_right _ (by simp [imapErrorEvents])
  · rw [hseen]
    simp only [remainingUnseen, List.mem_filter]
    refine ⟨hMem, ?_⟩
    simpa using hnotseen

/-- C3 witness: of the unseen batch [m1, m2, m3] where processing m2
raises, m1 is marked seen, and m2 is in the next search result. -/
theorem claim_C3_witness :
    ("m2" : String) ∈ remainingUnseen ["m1", "m2", "m3"]
      (pollCycle "bob@x" procW ["m1", "m2", "m3"]).seenMarked :=
  (claim_C3 "bob@x" procW ["m1", "m2", "m3"] "m2" rfl).2.2.2.2.2

/-- C4: the incoming message is always persisted and one outcome counter
always emitted; on a non-success outcome an error counter and a warning are
emitted and no outgoing message is appended and no send is attempted; on
success exactly one outgoing message is appended under the same thread. -/
theorem claim_C4 (db : DB) (session mail toAddr subject first_subject : String)
    (body : Option GenBody) (thread_id text status : String) (ok1 ok2 : Bool)
    (hcons : body.isSome = true ↔ status = "success") :
    incomingRowOf db session mail toAddr first_subject thread_id text ∈
      (send_reply db session mail toAddr subject first_subject body thread_id
        text status ok1 ok2).db.rows ∧
    Event.count "gemini.outcome"
        ["status:" ++ status, "mailbox:" ++ mail, "thread:" ++ thread_id] ∈
      (send_reply db session mail toAddr subject first_subject body thread_id
        text status ok1 ok2).events ∧
    (status ≠ "success" →
      Event.count "errors.by_type" ["type:" ++ status, "mailbox:" ++ mail] ∈
        (send_reply db session mail toAddr subject first_subject body thread_id
          text status ok1 ok2).events ∧
      Event.logWarning "LLM returned no body" ∈
        (send_reply db session mail toAddr subject first_subject body thread_id
          text status ok1 ok2).events ∧
      (send_reply db session mail toAddr subject first_subject body thread_id
          text status ok1 ok2).db.rows =
        db.rows ++ [incomingRowOf db session mail toAddr first_subject thread_id text] ∧
      (send_reply db session mail toAddr subject first_subject body thread_id
          text status ok1 ok2).events.all (fun e => !(isSendAttempt e)) = true) ∧
    (status = "success" → ∃ b, body = some b ∧
      (send_reply db session mail toAddr subject first_subject body thread_id
          text status ok1 ok2).db.rows =
        db.rows ++ [incomingRowOf db session mail toAddr first_subject thread_id text,
          ⟨db.nextId + 1, mail, thread_id, session, "outcoming", mail, b.body,
            some subject⟩]) := by
  cases hbody : body with
  | none =>
    rw [hbody] at hcons
    have hns : status ≠ "success" := fun hs => by simpa using hcons.mpr hs
    refine ⟨?_, ?_, ?_, ?_⟩
    · simp [send_reply, insert_message, incomingRowOf]
    · simp [send_reply]
    · intro _
      refine ⟨?_, ?_, ?_, ?_⟩ <;>
        simp [send_reply, insert_message, incomingRowOf, isSendAttempt]
    · intro hs
      exact absurd hs hns
  | some b =>
    rw [hbody] at hcons
    have hs : status = "success" := hcons.mp rfl
    refine ⟨?_, ?_, ?_, ?_⟩
    · simp [send_reply, insert_message, incomingRowOf]
    · simp [send_reply]
    · intro hne
      exact absurd hs hne
    · intro _
      exact ⟨b, rfl, by simp [send_reply, insert_message, incomingRowOf]⟩

/-- C4 witness: a filtered outcome persists only the incoming message and
attempts no send. -/
theorem claim_C4_witness :
    (send_reply DB.empty "s" "me@x" "a@y" "Re: Help" "Help" none "M1" "txt"
        "filtered" true true).db.rows =
      DB.empty.rows ++ [incomingRowOf DB.empty "s" "me@x" "a@y" "Help" "M1" "txt"] ∧
    (send_reply DB.empty "s" "me@x" "a@y" "Re: Help" "Help" none "M1" "txt"
        "filtered" true true).events.all (fun e => !(isSendAttempt e)) = true := by
  have h := claim_C4 DB.empty "s" "me@x" "a@y" "Re: Help" "Help" none "M1" "txt"
    "filtered" true true (by simp)
  have h3 := h.2.2.1 (by simp)
  exact ⟨h3.2.2.1, h3.2.2.2⟩

/-- C5: on a success outcome the reply subject is "Re: " plus the original
subject, exactly one outgoing message is persisted regardless of a
first-attempt failure, delivery is attempted at most twice with a 1-second
delay between attempts, a first-attempt failure is swallowed and retried, a
second-attempt failure is logged, reported unhealthy and raises to the
caller, and a successful send emits the success counter and healthy check
and stops retrying. -/
theorem claim_C5 (db : DB) (session mail : String) (m : InboundMsg)
    (gen : String → List (String × String × String) → Option GenBody × String)
    (ok1 ok2 : Bool) (b : GenBody)
    (hb : (handle_message db session mail m gen ok1 ok2).body = some b)
    (hs : (handle_message db session mail m gen ok1 ok2).status = "success") :
    (handle_message db session mail m gen ok1 ok2).send.db.rows = db.rows ++
      [incomingRowOf db session mail m.fromAddr m.subject
        (handle_message db session mail m gen ok1 ok2).threadId m.text,
       ⟨db.nextId + 1, mail, (handle_message db session mail m gen ok1 ok2).threadId,
        session, "outcoming", mail, b.body, some ("Re: " ++ m.subject)⟩] ∧
    attemptCount (handle_message db session mail m gen ok1 ok2).send.events ≤ 2 ∧
    attemptCount (handle_message db session mail m gen ok1 ok2).send.events =
      (if ok1 then 1 else 2) ∧
    (ok1 = false →
      Event.sleep 1 ∈ (handle_message db session mail m gen ok1 ok2).send.events) ∧
    (ok1 = true →
      (handle_message db session mail m gen ok1 ok2).send.raised = false ∧
      Event.count "smtp.sent" ["mailbox:" ++ mail,
          "thread:" ++ (handle_message db session mail m gen ok1 ok2).threadId] ∈
        (handle_message db session mail m gen ok1 ok2).send.events ∧
      Event.serviceCheck "smtp.health" 0 ["mailbox:" ++ mail] ∈
        (handle_message db session mail m gen ok1 ok2).send.events) ∧
    (ok1 = false → ok2 = true →
      (handle_message db session mail m gen ok1 ok2).send.raised = false ∧
      Event.count "smtp.sent" ["mailbox:" ++ mail,
          "thread:" ++ (handle_message db session mail m gen ok1 ok2).threadId] ∈
        (handle_message db session mail m gen ok1 ok2).send.events ∧
      Event.serviceCheck "smtp.health" 0 ["mailbox:" ++ mail] ∈
        (handle_message db session mail m gen ok1 ok2).send.events) ∧
    (ok1 = false → ok2 = false →
      (handle_message db session mail m gen ok1 ok2).send.raised = true ∧
      Event.serviceCheck "smtp.health" 2 ["mailbox:" ++ mail] ∈
        (handle_message db session mail m gen ok1 ok2).send.events ∧
      Event.logError "SMTP send failed" ∈
        (handle_message db session mail m gen ok1 ok2).send.events) := by
  have hsend : (handle_message db session mail m gen ok1 ok2).send =
      send_reply db session mail m.fromAddr ("Re: " ++ m.subject) m.subject
        (handle_message db session mail m gen ok1 ok2).body
        (handle_message db session mail m gen ok1 ok2).threadId m.text
        (handle_message db session mail m gen ok1 ok2).status ok1 ok2 := rfl
  rw [hsend, hb]
  cases ok1 <;> cases ok2 <;>
    simp [send_reply, sendLoop, insert_message, incomingRowOf, attemptCount,
      isSendAttempt]

/-- C5 witness: scenario E — first attempt fails, second succeeds; two
attempts are recorded and no failure propagates. -/
theorem claim_C5_witness :
    attemptCount (handle_message DB.empty "s" "me@x" msgW2 genW false true).send.events = 2 ∧
    (handle_message DB.empty "s" "me@x" msgW2 genW false true).send.raised = false := by
  have h := claim_C5 DB.empty "s" "me@x" msgW2 genW false true ⟨"On it.", 10, 6⟩ rfl rfl
  exact ⟨h.2.2.1, (h.2.2.2.2.2.1 rfl rfl).1⟩

/-- C1: with a reply-reference resolving to a stored thread, the message is
correlated to that thread and the conversation passed to generation is the
full ordered message sequence of the thread; with an unresolvable
reference, a new thread is rooted at the message identifier with empty
history and the message is still persisted (not dropped); with no
reference, a new thread is rooted at the message identifier. -/
theorem claim_C1 (db : DB) (session mail : String) (m : InboundMsg)
    (gen : String → List (String × String × String) → Option GenBody × String)
    (ok1 ok2 : Bool) (r : String) :
    (m.inReplyTo = some r → thread_exists db r = true →
      (handle_message db session mail m gen ok1 ok2).threadId = r ∧
      (handle_message db session mail m gen ok1 ok2).isNew = false ∧
      (handle_message db session mail m gen ok1 ok2).conversation =
        (queryThreadOrdered db r).map (fun row => (row.sender, row.message, row.type)) ∧
      (queryThreadOrdered db r).Pairwise msgIdLE) ∧
    (m.inReplyTo = some r → thread_exists db r = false →
      (handle_message db session mail m gen ok1 ok2).threadId = m.msgId ∧
      (handle_message db session mail m gen ok1 ok2).isNew = true ∧
      (handle_message db session mail m gen ok1 ok2).conversation = [] ∧
      incomingRowOf db session mail m.fromAddr m.subject m.msgId m.text ∈
        (handle_message db session mail m gen ok1 ok2).send.db.rows) ∧
    (m.inReplyTo = none →
      (handle_message db session mail m gen ok1 ok2).threadId = m.msgId ∧
      (handle_message db session mail m gen ok1 ok2).isNew = true ∧
      (handle_message db session mail m gen ok1 ok2).conversation = []) := by
  refine ⟨?_, ?_, ?_⟩
  · intro hr hex
    refine ⟨by simp [handle_message, hr, hex], by simp [handle_message, hr, hex],
      by simp [handle_message, hr, hex, conversationRows],
      pairwise_queryThreadOrdered db r⟩
  · intro hr hex
    refine ⟨by simp [handle_message, hr, hex], by simp [handle_message, hr, hex],
      by simp [handle_message, hr, hex], ?_⟩
    simp only [handle_message, hr, hex]
    cases hgb : (gen m.text []).1 <;>
      simp [hgb, send_reply, insert_message, incomingRowOf]
  · intro hr
    refine ⟨by simp [handle_message, hr], by simp [handle_message, hr],
      by simp [handle_message, hr]⟩

/-- C1 witness: a message replying to the stored thread T9 is correlated to
T9 and generation receives the stored conversation. -/
theorem claim_C1_witness :
    (handle_message dbW "s" "me@x" msgW genW true true).threadId = "T9" ∧
    (handle_message dbW "s" "me@x" msgW genW true true).conversation =
      [("a@y", "hello", "incoming")] := by
  have h := (claim_C1 dbW "s" "me@x" msgW genW true true "T9").1 rfl rfl
  exact ⟨h.1, h.2.2.1⟩

end ReplyOptimizer
